import Mathlib

/-!
# Verification of the Fredly news-bot pipeline (src/main.py)

A shallow embedding of the pipeline orchestration in `src/main.py`:
recency filtering (`is_recent`), headline scanning (`step1_scan_headlines`),
topic selection (`step2_select_topics`), research (`step3_deep_research`),
script writing (`step4_write_scripts`), the generation-service call with
its retry loop (`call_gemini`), audio assembly and delivery
(`send_to_user`), and the run orchestrator (`job`).

External capabilities (the feed parser, the generation service's HTTP
responses, the JSON decoder, thread-pool completion order, the shuffle of
the random module, the speech synthesizer, the transcoder and the
messaging endpoint) are passed in as explicit parameters, so each
definition mirrors the control flow of the corresponding Python function
over those inputs. Time is an integer count of seconds (`now` and
publication times as epoch seconds).
-/

set_option linter.unusedVariables false

/-! ## Python string primitives

Structurally recursive models of the Python string operations the code
uses, over `List Char` (so that concrete runs reduce in the kernel).
-/

/-- Python `s.split(sep)[0]` for a non-empty `sep`: the characters of `s`
before the first occurrence of `sep` (all of `s` when `sep` does not occur). -/
def splitFirst (sep : List Char) : List Char → List Char
  | [] => []
  | c :: rest =>
    if sep.isPrefixOf (c :: rest) then []
    else c :: splitFirst sep rest

/-- Python `s.split(sep)[0]` on strings: `"a - b".split(" - ")[0] = "a"`,
and a string without the separator is returned whole. -/
def pyFirstField (sep s : String) : String :=
  ⟨splitFirst sep.data s.data⟩

/-- Fuel-driven core of Python `s.replace(pat, rep)` for non-empty `pat`:
each fuel step consumes at least one character, so fuel `s.length` is enough. -/
def replaceAllAux (pat rep : List Char) : Nat → List Char → List Char
  | 0, s => s
  | _, [] => []
  | fuel + 1, c :: rest =>
    if pat.isPrefixOf (c :: rest) then
      rep ++ replaceAllAux pat rep fuel (List.drop (pat.length - 1) rest)
    else
      c :: replaceAllAux pat rep fuel rest

/-- Python `s.replace(pat, rep)` for a non-empty `pat`. -/
def replaceAll (pat rep s : List Char) : List Char :=
  replaceAllAux pat rep s.length s

/-- Python `s.strip()`: drop leading and trailing whitespace. -/
def pyStrip (s : List Char) : List Char :=
  (((s.dropWhile Char.isWhitespace).reverse).dropWhile Char.isWhitespace).reverse

/-! ## Feed entries and the recency filter (`is_recent`, src/main.py:77-84) -/

/-- What `entry.published_parsed` and its conversion to a time yield for one
feed entry: the attribute may be absent or falsy, the conversion
(`mktime` / `fromtimestamp`) may raise, or it yields an epoch time. -/
inductive PubParsed where
  | absent
  | unparsable
  | time (t : Int)
deriving DecidableEq, Repr

/-- A feed entry, with the fields `step1_scan_headlines` and `fetch_details`
read: the parsed publication time and the title. -/
structure Entry where
  published_parsed : PubParsed
  title : String
deriving DecidableEq, Repr

/-- `is_recent(entry, hours=24)` (src/main.py:77-84): when the publication
time is present and convertible, accept iff `now - pub_time < timedelta(hours=26)`
(the hard-coded 26-hour window; the `hours` argument is never read);
otherwise — attribute absent/falsy, or the conversion raises — return `True`. -/
def is_recent (now : Int) (entry : Entry) (hours : Nat) : Bool :=
  match entry.published_parsed with
  | .absent => true
  | .unparsable => true
  | .time t => if now - t < 26 * 3600 then true else false

/-! ## Step 1: headline scanning (`step1_scan_headlines`, src/main.py:151-167) -/

/-- The inner loop of `step1_scan_headlines` for one `(cat, url)` pair:
walk the feed's entries keeping the recent ones as `"[cat] title"` with the
title cut at `" - "`, incrementing `count` per kept entry and breaking as
soon as `count >= 15` (checked after every entry, kept or not). -/
def scanCategory (now : Int) (cat : String) : List Entry → Nat → List String
  | [], _ => []
  | e :: rest, count =>
    if is_recent now e 24 then
      let title := pyFirstField " - " e.title
      let item := "[" ++ cat ++ "] " ++ title
      if count + 1 ≥ 15 then [item]
      else item :: scanCategory now cat rest (count + 1)
    else
      if count ≥ 15 then []
      else scanCategory now cat rest count

/-- `step1_scan_headlines()` (src/main.py:151-167): concatenate the kept
items of every category (a feed whose fetch raises contributes nothing and
is modelled as absent from `feeds`), `random.shuffle` the combined list
(the shuffle is the external `shuffle` parameter), and return the first 60.
No deduplication of any kind is performed. -/
def step1_scan_headlines (now : Int) (feeds : List (String × List Entry))
    (shuffle : List String → List String) : List String :=
  (shuffle ((feeds.map (fun p => scanCategory now p.1 p.2 0)).flatten)).take 60

/-! ## Step 2: topic selection (`step2_select_topics`, src/main.py:169-191) -/

/-- The fence stripping `step2_select_topics` applies to the raw response
before decoding: `raw.replace("```json", "").replace("```", "").strip()`. -/
def stripFences (s : String) : String :=
  ⟨pyStrip (replaceAll "```".data [] (replaceAll "```json".data [] s.data))⟩

/-- `step2_select_topics(headlines, api_url)` (src/main.py:169-191) after
the prompt is built: `raw` is what `call_gemini` returned for the selection
prompt (`none` for a falsy result), `parse` is the external `json.loads`
restricted to responses decoding to a list of strings (`none` when decoding
raises). A falsy or undecodable response yields `[]`; otherwise the decoded
list is returned as-is — no size or category validation is performed. -/
def step2_select_topics (raw : Option String)
    (parse : String → Option (List String)) : List String :=
  match raw with
  | none => []
  | some b =>
    match parse (stripFences b) with
    | none => []
    | some l => l

/-! ## Step 3: research (`step3_deep_research`, src/main.py:213-225) -/

/-- `step3_deep_research(topics)` (src/main.py:213-225): each topic is
submitted to `fetch_details` (the external `fetch`, returning `""` on no
entries, no valid excerpt, or an exception); results are collected in
thread-pool completion order (the external permutation `order` of the
topic list), falsy results dropped. An empty result list is the circuit
breaker: the stage returns `None`; otherwise the blocks are joined. -/
def step3_deep_research (fetch : String → String)
    (order : List String → List String) (topics : List String) : Option String :=
  let results := ((order topics).map fetch).filter (fun r => r ≠ "")
  if results.isEmpty then none
  else some (String.intercalate "\n" results)

/-! ## The generation-service call (`call_gemini`, src/main.py:122-147) -/

/-- One attempt's outcome at the generation service, as `call_gemini`'s
`try` block sees it: an HTTP response with a status code and (for 200) the
extracted text, or an exception anywhere in the block (transport error, or
a 200 body from which the text extraction raises). -/
inductive HttpResult where
  | resp (status : Nat) (body : String)
  | exn
deriving DecidableEq, Repr

/-- What a run of `call_gemini`'s retry loop produced: the returned value
(`none` for `return None` and for falling off the loop), the total seconds
slept, and how many attempts (requests) were made. -/
structure CallOutcome where
  result : Option String
  totalWait : Nat
  attempts : Nat
deriving DecidableEq, Repr

/-- The `for attempt in range(3)` loop of `call_gemini` (src/main.py:131-147):
`resp n` is the outcome of attempt `n` (0-based). Status 200 returns the
body; status 429 sleeps `(attempt + 1) * 20` seconds and retries; any other
status returns `None` at once; an exception sleeps 5 seconds and retries.
The fuel starts at 3, so at most 3 attempts are made. -/
def call_gemini_loop (resp : Nat → HttpResult) (attempt waited : Nat) :
    Nat → CallOutcome
  | 0 => ⟨none, waited, attempt⟩
  | fuel + 1 =>
    match resp attempt with
    | .resp s body =>
      if s = 200 then ⟨some body, waited, attempt + 1⟩
      else if s = 429 then
        call_gemini_loop resp (attempt + 1) (waited + (attempt + 1) * 20) fuel
      else ⟨none, waited, attempt + 1⟩
    | .exn => call_gemini_loop resp (attempt + 1) (waited + 5) fuel

/-- `call_gemini(prompt, base_url, json_mode)` (src/main.py:122-147),
abstracted over the per-attempt outcomes `resp`. -/
def call_gemini (resp : Nat → HttpResult) : CallOutcome :=
  call_gemini_loop resp 0 0 3

/-! ## Step 4: script writing (`step4_write_scripts`, src/main.py:227-275) -/

/-- The brief prompt of `step4_write_scripts` (instruction text elided down
to its head; the prompt embeds the evidence data and only its flow to the
generation call matters here). -/
def p_brief (data : String) : String :=
  "Role: Senior Analyst. Task: Write a High-Impact Summary. Data: " ++ data

/-- The Chinese-anchor prompt of `step4_write_scripts` (instruction text
elided down to its head). -/
def p_cn (data : String) : String :=
  "Role: Senior News Anchor. Task: Deliver the morning news. Data: " ++ data

/-- The English deep-dive prompt of `step4_write_scripts` (instruction text
elided down to its head). -/
def p_en (data : String) : String :=
  "Role: NPR/BBC Senior Correspondent. Task: 13-minute report. Data: " ++ data

/-- `step4_write_scripts(data, api_url)` (src/main.py:227-275): three
sequential `call_gemini` invocations (brief, Chinese intro, English deep
dive) with 30-second cooldowns between them, each result returned as-is —
a `None` from any call is passed through, never retried here and never
aborting the remaining calls. `gen` maps a prompt to the call's result. -/
def step4_write_scripts (gen : String → Option String) (data : String) :
    Option String × Option String × Option String :=
  (gen (p_brief data), gen (p_cn data), gen (p_en data))

/-! ## Audio assembly and delivery (`send_to_user`, src/main.py:278-313) -/

/-- Which of the ephemeral audio files exist in `./outputs` at a given
moment: `cn.mp3`, `en.mp3` and `final.mp3`. -/
structure FsState where
  cn : Bool
  en : Bool
  final : Bool
deriving DecidableEq, Repr

/-- `send_to_user(text, cn, en)` (src/main.py:278-313), returning the file
state it leaves behind. `ffmpegOk` is `ensure_ffmpeg()`; `mixOk` is whether
the ffmpeg concat job exits 0 (`check=True` raises otherwise, and the
exception propagates out of the function, skipping every later line);
`msgOk` is whether the text message is delivered by the Markdown attempt or
its plain-text fallback (the fallback's own exception propagates); `audioOk`
is whether `send_audio` succeeds. `f_cn.unlink(); f_en.unlink()` run only
at the very end, after a successful send; `f_final.unlink()` runs only
after a successful `send_audio`. -/
def send_to_user (ffmpegOk mixOk msgOk audioOk : Bool) (text : Option String) :
    FsState :=
  if !ffmpegOk then ⟨false, false, false⟩
  else
    let afterTts : FsState := ⟨true, true, false⟩
    if !mixOk then afterTts
    else
      let afterMix : FsState := ⟨true, true, true⟩
      if (text.getD "") ≠ "" ∧ msgOk = false then afterMix
      else if !audioOk then afterMix
      else ⟨false, false, false⟩

/-! ## The run orchestrator (`job`, src/main.py:315-345) -/

/-- Python truthiness of an optional string: `None` and `""` are falsy. -/
def truthyStr (o : Option String) : Bool := (o.getD "") != ""

/-- The stages `job` can invoke, in pipeline order. -/
inductive Stage where
  | getApi
  | scan
  | select
  | research
  | write
  | deliver
deriving DecidableEq, Repr

/-- What one run of `job` did: which stage functions were invoked, and the
`(text, cn, en)` triple handed to `send_to_user` when delivery was reached
(`none` when the run returned before that point). -/
structure JobOutcome where
  invoked : List Stage
  delivered : Option (Option String × String × String)
deriving DecidableEq, Repr

/-- `job()` (src/main.py:315-345): the linear pipeline with a `return`
after every falsy stage result. `api` is `get_api_url()`'s result; the
step-1 inputs, the selection response plus decoder, the fetcher plus
completion order, and the generation responses for step 4 are the external
parameters of the respective stage models. Delivery is invoked iff both
narration scripts `c` and `e` are truthy (`if c and e:`); the brief `txt`
is not checked. -/
def job (api : Option String) (now : Int) (feeds : List (String × List Entry))
    (shuffle : List String → List String)
    (selectRaw : Option String) (parse : String → Option (List String))
    (fetch : String → String) (order : List String → List String)
    (gen : String → Option String) : JobOutcome :=
  if !truthyStr api then ⟨[.getApi], none⟩
  else
    let headlines := step1_scan_headlines now feeds shuffle
    if headlines.isEmpty then ⟨[.getApi, .scan], none⟩
    else
      let topics := step2_select_topics selectRaw parse
      if topics.isEmpty then ⟨[.getApi, .scan, .select], none⟩
      else
        match step3_deep_research fetch order topics with
        | none => ⟨[.getApi, .scan, .select, .research], none⟩
        | some data =>
          if data = "" then ⟨[.getApi, .scan, .select, .research], none⟩
          else
            let w := step4_write_scripts gen data
            if truthyStr w.2.1 ∧ truthyStr w.2.2 then
              ⟨[.getApi, .scan, .select, .research, .write, .deliver],
                some (w.1, (w.2.1).getD "", (w.2.2).getD "")⟩
            else
              ⟨[.getApi, .scan, .select, .research, .write], none⟩

/-! ## Claims -/

/-- C10: for every feed entry and any two values of the `hours` argument,
`is_recent` gives the same answer — the argument is never read, because the
accepted window is the hard-coded 26-hour constant. -/
theorem c10_hours_argument_irrelevant (now : Int) (e : Entry) (h1 h2 : Nat) :
    is_recent now e h1 = is_recent now e h2 := by
  cases hp : e.published_parsed <;> simp [is_recent, hp]

/-- C2, counterexample: an entry 25 hours old is older than the configured
24-hour window (`hours = 24`, the default), yet `is_recent` returns `true`,
because the comparison uses the fixed 26-hour constant instead of `hours`. -/
theorem c2_counterexample :
    (100 * 3600 : Int) - 75 * 3600 > 24 * 3600 ∧
    is_recent (100 * 3600) ⟨.time (75 * 3600), ""⟩ 24 = true := by
  constructor
  · decide
  · decide

/-- C2, amended: the accepted window is the fixed 26-hour constant,
regardless of the `hours` argument — an entry with a parsable timestamp is
accepted iff it is strictly less than 26 hours old (so at exactly the
26-hour boundary it is rejected), and an entry lacking a parsable timestamp
(attribute absent/falsy, or the conversion raises) is accepted (fail-open). -/
theorem c2_recency_window (now : Int) (e : Entry) (hours : Nat) :
    (∀ t, e.published_parsed = .time t →
      (is_recent now e hours = true ↔ now - t < 26 * 3600)) ∧
    ((e.published_parsed = .absent ∨ e.published_parsed = .unparsable) →
      is_recent now e hours = true) := by
  refine ⟨fun t ht => ?_, fun h => ?_⟩
  · simp [is_recent, ht]
  · rcases h with h | h <;> simp [is_recent, h]

/-- C1, counterexample: two recent entries of one feed share the title
`"X"`, so there is exactly one distinct (normalized) title, yet
`step1_scan_headlines` outputs both items — its output size is 2, not 1:
the function performs no deduplication at all. -/
theorem c1_counterexample :
    (step1_scan_headlines 0 [("CHINA", [⟨.absent, "X"⟩, ⟨.absent, "X"⟩])] id).length = 2 ∧
    (step1_scan_headlines 0 [("CHINA", [⟨.absent, "X"⟩, ⟨.absent, "X"⟩])] id).dedup.length = 1 := by
  constructor
  · decide
  · decide

/-- C1, amended: `step1_scan_headlines` performs no deduplication — for
every length-preserving shuffle its output size is the total number of
accepted entries across categories (each category capped at 15 by its scan
loop) truncated to 60, independently of how many titles coincide; duplicate
normalized titles all survive, and the output order is the shuffle's. -/
theorem c1_scan_no_dedup (now : Int) (feeds : List (String × List Entry))
    (shuffle : List String → List String)
    (hlen : ∀ l, (shuffle l).length = l.length) :
    (step1_scan_headlines now feeds shuffle).length
      = min 60 ((feeds.map (fun p => (scanCategory now p.1 p.2 0).length)).sum) := by
  unfold step1_scan_headlines
  rw [List.length_take, hlen, List.length_flatten, List.map_map]
  rfl

/-- The retry loop makes at most `attempt + fuel` attempts in total. -/
theorem call_gemini_loop_attempts_le (resp : Nat → HttpResult) :
    ∀ (fuel attempt waited : Nat),
      (call_gemini_loop resp attempt waited fuel).attempts ≤ attempt + fuel := by
  intro fuel
  induction fuel with
  | zero => intro a w; simp [call_gemini_loop]
  | succ n ih =>
    intro a w
    simp only [call_gemini_loop]
    cases hr : resp a with
    | exn => exact le_trans (ih (a + 1) (w + 5)) (by omega)
    | resp s body =>
      by_cases h200 : s = 200
      · simp [h200]
      · by_cases h429 : s = 429
        · simp [h200, h429]
          exact le_trans (ih (a + 1) (w + (a + 1) * 20)) (by omega)
        · simp [h200, h429]

/-- C6: when the generation service answers 429 on the first two attempts
and 200 on the third, `call_gemini` succeeds on the 3rd attempt having
slept `20 * 1 + 20 * 2` seconds (20s then 40s, monotonically increasing);
and for every response sequence, at most 3 attempts are ever made. -/
theorem c6_rate_limit_retry (resp : Nat → HttpResult) (b0 b1 t : String)
    (h0 : resp 0 = .resp 429 b0) (h1 : resp 1 = .resp 429 b1)
    (h2 : resp 2 = .resp 200 t) :
    call_gemini resp = ⟨some t, 20 * 1 + 20 * 2, 3⟩ ∧
    ∀ r : Nat → HttpResult, (call_gemini r).attempts ≤ 3 := by
  constructor
  · simp [call_gemini, call_gemini_loop, h0, h1, h2]
  · intro r
    exact call_gemini_loop_attempts_le r 3 0 0

/-- C6, witness: the concrete response sequence 429, 429, then 200 with
body `"ok"`. -/
theorem c6_rate_limit_retry_witness :
    call_gemini (fun n => if n = 0 then .resp 429 "" else
        if n = 1 then .resp 429 "" else .resp 200 "ok")
      = ⟨some "ok", 20 * 1 + 20 * 2, 3⟩ ∧
    ∀ r : Nat → HttpResult, (call_gemini r).attempts ≤ 3 :=
  c6_rate_limit_retry _ "" "" "ok" rfl rfl rfl

/-- C7, counterexample: a network exception on the first attempt — a
non-rate-limit failure — is not immediately fatal: `call_gemini` sleeps 5
seconds, retries, and succeeds on the second attempt, contradicting the
claim that every non-rate-limit error returns a failure without retrying. -/
theorem c7_counterexample :
    call_gemini (fun n => if n = 0 then .exn else .resp 200 "ok")
      = ⟨some "ok", 5, 2⟩ := by decide

/-- C7, amended: a non-rate-limit HTTP *error response* (status other than
200 and 429) makes `call_gemini` return `None` immediately — one attempt,
no sleep; network/transport *exceptions*, by contrast, are retried after a
5-second sleep within the 3-attempt budget (shown for an exception followed
by a success). -/
theorem c7_non_ratelimit_fatal (resp : Nat → HttpResult) (s : Nat) (b : String)
    (h0 : resp 0 = .resp s b) (hs200 : s ≠ 200) (hs429 : s ≠ 429) :
    call_gemini resp = ⟨none, 0, 1⟩ ∧
    ∀ (r : Nat → HttpResult) (t : String), r 0 = .exn → r 1 = .resp 200 t →
      call_gemini r = ⟨some t, 5, 2⟩ := by
  constructor
  · simp [call_gemini, call_gemini_loop, h0, hs200, hs429]
  · intro r t hr0 hr1
    simp [call_gemini, call_gemini_loop, hr0, hr1]

/-- C7, witness for the amended claim: a constant 500 response fails at
once with no retry and no sleep. -/
theorem c7_non_ratelimit_fatal_witness :
    call_gemini (fun _ => .resp 500 "err") = ⟨none, 0, 1⟩ ∧
    ∀ (r : Nat → HttpResult) (t : String), r 0 = .exn → r 1 = .resp 200 t →
      call_gemini r = ⟨some t, 5, 2⟩ :=
  c7_non_ratelimit_fatal (fun _ => .resp 500 "err") 500 "err" rfl
    (by decide) (by decide)

/-- C8, counterexample: the generation service's decoded selection
`["a"]` has size 1 (not the fixed 5) and contains no mandatory-category
topic, yet `step2_select_topics` returns it unchanged rather than the
empty list — no size or category validation exists. -/
theorem c8_counterexample :
    step2_select_topics (some "x") (fun _ => some ["a"]) = ["a"] ∧
    (["a"] : List String).length ≠ 5 ∧ (["a"] : List String) ≠ [] := by
  refine ⟨rfl, by decide, by decide⟩

/-- C8, amended: `step2_select_topics` performs no validation of the
decoded list — whenever decoding the fence-stripped response succeeds with
a list `l`, whatever its size or categories, `l` is returned as-is; only a
falsy response or a decoding failure yields the empty list. (The size-5 and
mandatory-category rules live only in the prompt text.) -/
theorem c8_no_validation (raw : String) (parse : String → Option (List String))
    (l : List String) (h : parse (stripFences raw) = some l) :
    step2_select_topics (some raw) parse = l := by
  simp [step2_select_topics, h]

/-- C8, witness for the amended claim: a decoded two-element list is passed
through unchanged. -/
theorem c8_no_validation_witness :
    step2_select_topics (some "x") (fun _ => some ["a", "b"]) = ["a", "b"] :=
  c8_no_validation "x" (fun _ => some ["a", "b"]) ["a", "b"] rfl

/-- C9, counterexample: when the ffmpeg mixing job fails (non-zero exit,
`check=True` raises), `send_to_user` propagates the exception before
reaching its unlink calls, so `cn.mp3` and `en.mp3` are left on disk —
the per-track files are not deleted in the failure case. -/
theorem c9_counterexample :
    send_to_user true false true true (some "brief") = ⟨true, true, false⟩ := by
  decide

/-- C9, amended: the per-track files `cn.mp3` and `en.mp3` are deleted only
on the fully successful path — mixing succeeds, the text message (when a
brief is present) is delivered, and the audio upload succeeds, after which
`final.mp3` is deleted too; when the mixing job fails, the run aborts with
`cn.mp3` and `en.mp3` still on disk. -/
theorem c9_cleanup_success_only (msgOk audioOk : Bool) (text : Option String)
    (hmsg : truthyStr text = true → msgOk = true) (haud : audioOk = true) :
    send_to_user true true msgOk audioOk text = ⟨false, false, false⟩ ∧
    send_to_user true false msgOk audioOk text = ⟨true, true, false⟩ := by
  subst haud
  constructor
  · by_cases ht : (text.getD "") = ""
    · simp [send_to_user, ht]
    · have hm : msgOk = true := hmsg (by simpa [truthyStr] using ht)
      simp [send_to_user, ht, hm]
  · simp [send_to_user]

/-- C9, witness for the amended claim: a run with a brief present, message
and upload succeeding. -/
theorem c9_cleanup_success_only_witness :
    send_to_user true true true true (some "brief") = ⟨false, false, false⟩ ∧
    send_to_user true false true true (some "brief") = ⟨true, true, false⟩ :=
  c9_cleanup_success_only true true (some "brief") (fun _ => rfl) rfl

/-- C1, witness for the amended claim: on the duplicate-title feed of the
counterexample with the identity shuffle, both copies are counted. -/
theorem c1_scan_no_dedup_witness :
    (step1_scan_headlines 0 [("CHINA", [⟨.absent, "X"⟩, ⟨.absent, "X"⟩])] id).length
      = min 60 (([(("CHINA", [⟨.absent, "X"⟩, ⟨.absent, "X"⟩]) : String × List Entry)].map
          (fun p => (scanCategory 0 p.1 p.2 0).length)).sum) :=
  c1_scan_no_dedup 0 _ id (fun _ => rfl)

/-- C3, counterexample: a run in which the generation service fails the
Telegram brief (returns falsy for the brief prompt) but produces both
narration scripts is *not* aborted — `job` still invokes delivery, handing
`send_to_user` a package with audio scripts and no text brief, so a partial
package (audio without text) is delivered. -/
theorem c3_counterexample :
    (job (some "u") 0 [("CHINA", [⟨.absent, "X"⟩])] id (some "r") (fun _ => some ["t"])
      (fun _ => "D") id (fun p => if p = p_brief "D" then none else some "s")).delivered
      = some (none, "s", "s") ∧
    Stage.deliver ∈ (job (some "u") 0 [("CHINA", [⟨.absent, "X"⟩])] id (some "r")
      (fun _ => some ["t"]) (fun _ => "D") id
      (fun p => if p = p_brief "D" then none else some "s")).invoked := by
  refine ⟨by decide, by decide⟩

/-- C3, amended: the run aborts without invoking delivery when a stage's
result is falsy — in particular, whenever either narration script (the
Chinese or the English one) comes back falsy from the generation service,
`send_to_user` is never invoked and nothing is delivered; a missing text
brief, however, does not abort the run (see the counterexample). -/
theorem c3_narration_abort (api : Option String) (now : Int)
    (feeds : List (String × List Entry)) (shuffle : List String → List String)
    (selectRaw : Option String) (parse : String → Option (List String))
    (fetch : String → String) (order : List String → List String)
    (gen : String → Option String)
    (h : ∀ d, truthyStr (gen (p_cn d)) = false ∨ truthyStr (gen (p_en d)) = false) :
    (job api now feeds shuffle selectRaw parse fetch order gen).delivered = none ∧
    Stage.deliver ∉ (job api now feeds shuffle selectRaw parse fetch order gen).invoked := by
  by_cases hapi : truthyStr api = true
  · by_cases hhead : (step1_scan_headlines now feeds shuffle).isEmpty = true
    · constructor <;> simp [job, hapi, hhead]
    · by_cases htop : (step2_select_topics selectRaw parse).isEmpty = true
      · constructor <;> simp [job, hapi, hhead, htop]
      · rcases h3 : step3_deep_research fetch order (step2_select_topics selectRaw parse)
          with _ | data
        · constructor <;> simp [job, hapi, hhead, htop, h3]
        · by_cases hd : data = ""
          · constructor <;> simp [job, hapi, hhead, htop, h3, hd]
          · have hw : ¬ (truthyStr (step4_write_scripts gen data).2.1 = true ∧
                truthyStr (step4_write_scripts gen data).2.2 = true) := by
              rcases h data with h' | h' <;> simp [step4_write_scripts, h']
            constructor <;> simp [job, hapi, hhead, htop, h3, hd, hw]
  · constructor <;> simp [job, hapi]

/-- C3, witness for the amended claim: the generation service is down for
every prompt, so no narration exists and delivery is never invoked. -/
theorem c3_narration_abort_witness :
    (job (some "u") 0 [("CHINA", [(⟨.absent, "X"⟩ : Entry)])] id (some "r")
      (fun _ => some ["t"]) (fun _ => "D") id (fun _ => none)).delivered = none ∧
    Stage.deliver ∉ (job (some "u") 0 [("CHINA", [(⟨.absent, "X"⟩ : Entry)])] id (some "r")
      (fun _ => some ["t"]) (fun _ => "D") id (fun _ => none)).invoked :=
  c3_narration_abort _ _ _ _ _ _ _ _ _ (fun _ => Or.inl (by decide))

/-- C4: when the generation service's topic-selection response is falsy,
undecodable after fence stripping (non-JSON), or decodes to the empty
array, `step2_select_topics` returns the empty topic list, and the run
aborts right after the selection stage: neither `step3_deep_research` nor
any later stage (script writing, delivery) is ever invoked. -/
theorem c4_selection_failure_aborts (selectRaw : Option String)
    (parse : String → Option (List String)) (api : Option String) (now : Int)
    (feeds : List (String × List Entry)) (shuffle : List String → List String)
    (fetch : String → String) (order : List String → List String)
    (gen : String → Option String)
    (h : ∀ b, selectRaw = some b →
      parse (stripFences b) = none ∨ parse (stripFences b) = some []) :
    step2_select_topics selectRaw parse = [] ∧
    Stage.research ∉ (job api now feeds shuffle selectRaw parse fetch order gen).invoked ∧
    Stage.write ∉ (job api now feeds shuffle selectRaw parse fetch order gen).invoked ∧
    Stage.deliver ∉ (job api now feeds shuffle selectRaw parse fetch order gen).invoked := by
  have hsel : step2_select_topics selectRaw parse = [] := by
    cases hr : selectRaw with
    | none => rfl
    | some b => rcases h b hr with h' | h' <;> simp [step2_select_topics, hr, h']
  refine ⟨hsel, ?_⟩
  by_cases hapi : truthyStr api = true
  · by_cases hhead : (step1_scan_headlines now feeds shuffle).isEmpty = true
    · simp [job, hapi, hhead]
    · simp [job, hapi, hhead, hsel]
  · simp [job, hapi]

/-- C4, witness: a non-JSON response (`json.loads` raises on every input),
with a feed that produced headlines: the run stops at selection. -/
theorem c4_selection_failure_aborts_witness :
    step2_select_topics (some "not json") (fun _ => none) = [] ∧
    Stage.research ∉ (job (some "u") 0 [("CHINA", [(⟨.absent, "X"⟩ : Entry)])] id
      (some "not json") (fun _ => none) (fun _ => "D") id (fun _ => some "s")).invoked ∧
    Stage.write ∉ (job (some "u") 0 [("CHINA", [(⟨.absent, "X"⟩ : Entry)])] id
      (some "not json") (fun _ => none) (fun _ => "D") id (fun _ => some "s")).invoked ∧
    Stage.deliver ∉ (job (some "u") 0 [("CHINA", [(⟨.absent, "X"⟩ : Entry)])] id
      (some "not json") (fun _ => none) (fun _ => "D") id (fun _ => some "s")).invoked :=
  c4_selection_failure_aborts _ _ _ _ _ _ _ _ _ (fun _ _ => Or.inl rfl)

/-- C5: when every topic's research query yields zero excerpts
(`fetch_details` returns the empty string for every topic),
`step3_deep_research` returns `None` — the circuit breaker — and the run
aborts before any script-generation call: neither the script-writing stage
nor delivery is ever invoked. -/
theorem c5_research_circuit_breaker (fetch : String → String)
    (order : List String → List String) (topics : List String)
    (api : Option String) (now : Int) (feeds : List (String × List Entry))
    (shuffle : List String → List String) (selectRaw : Option String)
    (parse : String → Option (List String)) (gen : String → Option String)
    (h : ∀ t, fetch t = "") :
    step3_deep_research fetch order topics = none ∧
    Stage.write ∉ (job api now feeds shuffle selectRaw parse fetch order gen).invoked ∧
    Stage.deliver ∉ (job api now feeds shuffle selectRaw parse fetch order gen).invoked := by
  have key : ∀ ts, step3_deep_research fetch order ts = none := by
    intro ts
    have hf : ((order ts).map fetch).filter (fun r => r ≠ "") = [] := by
      induction order ts with
      | nil => rfl
      | cons a l ih => simp [h, ih]
    simp only [step3_deep_research, hf]
    rfl
  refine ⟨key topics, ?_⟩
  by_cases hapi : truthyStr api = true
  · by_cases hhead : (step1_scan_headlines now feeds shuffle).isEmpty = true
    · simp [job, hapi, hhead]
    · by_cases htop : (step2_select_topics selectRaw parse).isEmpty = true
      · simp [job, hapi, hhead, htop]
      · simp [job, hapi, hhead, htop, key]
  · simp [job, hapi]

/-- C5, witness: every research query comes back empty while the earlier
stages succeed: the run stops at the research stage. -/
theorem c5_research_circuit_breaker_witness :
    step3_deep_research (fun _ => "") id ["t"] = none ∧
    Stage.write ∉ (job (some "u") 0 [("CHINA", [(⟨.absent, "X"⟩ : Entry)])] id
      (some "r") (fun _ => some ["t"]) (fun _ => "") id (fun _ => some "s")).invoked ∧
    Stage.deliver ∉ (job (some "u") 0 [("CHINA", [(⟨.absent, "X"⟩ : Entry)])] id
      (some "r") (fun _ => some ["t"]) (fun _ => "") id (fun _ => some "s")).invoked :=
  c5_research_circuit_breaker _ _ _ _ _ _ _ _ _ _ (fun _ => rfl)
